import Mathlib

/-!
Verification of the moltbot-audit policy evaluation and remediation engine.

This file gives a shallow embedding of the decision logic of `src/audit.py`
(read-only audit checks) and `src/harden.py` (interactive remediation) and
proves the behavioural properties stated in the specification.

Modelling conventions:
  - A JSON document is the inductive `Json`; the top-level config is a
    string-keyed mapping, `Config := List (String × Json)`, preserving
    Python dict insertion order.
  - Python `d.get(k, default)` is `Json.getD` / `dgetD`; Python dict item
    assignment `d[k] = v` is `dset` (replace in place, else append), which
    matches CPython's order-preserving update semantics.
  - `input()` is modelled as an `Option String`: `none` is end-of-file, on
    which CPython raises `EOFError`; the raised exception is the `.error`
    case of `Except Unit`.  `some s` yields the line `s`.
  - Machine-level bits: `st.st_mode & stat.S_IRWXO` (mask 0o007) is
    `mode % 8`, and `st.st_mode & stat.S_IRWXG` (mask 0o070) is
    `mode / 8 % 8` shifted; both nonzero tests agree with the bitmask tests.
  - `secrets.token_hex(32)` draws 32 random bytes; randomness is modelled
    by passing the drawn bytes (a `List Nat`, each < 256) as a parameter to
    `token_hex`, which performs the hex encoding exactly as CPython does.
-/

/-- Severity vocabulary of a finding, as printed by the audit tool
(`[PASS]`, `[INFO]`, `[WARN]`, `[FAIL]`, `[CRITICAL]`). -/
inductive Sev where
  | pass
  | info
  | warn
  | fail
  | critical
deriving DecidableEq, Repr

/-- A risk finding: category, severity, human-readable location into the
document, and (for secret findings) the masked rendering of the value that
appears in the printed message. -/
structure Finding where
  category : String
  severity : Sev
  location : String
  masked : String
deriving DecidableEq, Repr

/-- A JSON-like document tree: the values `json.load` can produce. -/
inductive Json where
  | null
  | bool (b : Bool)
  | num (n : Int)
  | str (s : String)
  | arr (xs : List Json)
  | obj (kvs : List (String × Json))

/-- The top-level configuration document: a string-keyed mapping. -/
abbrev Config := List (String × Json)

/-- Dictionary lookup on an ordered association list (Python `k in d` /
`d[k]` on a dict with unique keys; first match wins). -/
def dget : List (String × Json) → String → Option Json
  | [], _ => none
  | (k', v') :: rest, k => if k' = k then some v' else dget rest k

/-- Python `d.get(k, default)` on a mapping given as an association list. -/
def dgetD (kvs : List (String × Json)) (k : String) (d : Json) : Json :=
  (dget kvs k).getD d

/-- Python dict item assignment `d[k] = v`: replace the value in place if
the key exists (preserving position), otherwise append. -/
def dset : List (String × Json) → String → Json → List (String × Json)
  | [], k, v => [(k, v)]
  | (k', v') :: rest, k, v =>
      if k' = k then (k, v) :: rest else (k', v') :: dset rest k v

/-- Python `node.get(k)` without default: `none` when the key is absent.
On a non-mapping Python raises `AttributeError`; the claims below only
apply `get` to mappings, and the model returns `none` elsewhere. -/
def Json.get : Json → String → Option Json
  | .obj kvs, k => dget kvs k
  | _, _ => none

/-- Python `node.get(k, default)` (see `Json.get` for the non-mapping
caveat). -/
def Json.getD (j : Json) (k : String) (d : Json) : Json :=
  (j.get k).getD d

/-- Python dict item assignment on a `Json` node.  On a non-mapping Python
raises `TypeError`; the claims below only assign into mappings, and the
model leaves other nodes unchanged. -/
def Json.set : Json → String → Json → Json
  | .obj kvs, k, v => .obj (dset kvs k v)
  | j, _, _ => j

/-- Python truthiness of a JSON value (`if not x`, `if x`). -/
def truthy : Json → Bool
  | .null => false
  | .bool b => b
  | .num n => n ≠ 0
  | .str s => s ≠ ""
  | .arr xs => !xs.isEmpty
  | .obj kvs => !kvs.isEmpty

/-- Python `x == "lit"` for a JSON value `x` against a string literal:
true exactly when `x` is that string. -/
def Json.eqStr : Json → String → Bool
  | .str t, s => t = s
  | _, _ => false

/-- Python `len(x)` for the JSON values it is applied to in the source
(strings; also sequences/mappings).  On numbers/booleans/null Python
raises `TypeError`; the claims below only measure strings. -/
def Json.jlen : Json → Nat
  | .str s => s.length
  | .arr xs => xs.length
  | .obj kvs => kvs.length
  | _ => 0

/-- Python `s.startswith(p)` on explicit character lists. -/
def pyStartsWith : List Char → List Char → Bool
  | _, [] => true
  | [], _ :: _ => false
  | c :: cs, p :: ps => c = p && pyStartsWith cs ps

/-- The fixed credential-prefix patterns of `check_secrets`
(`audit.py` line 128). -/
def suspicious_prefixes : List String :=
  ["sk-", "AIza", "xoxb-", "xoxp-", "ghp_"]

/-- The masked rendering `node[:4] + "..." + node[-4:]` of `audit.py`
line 137, on character lists.  Python's `node[-4:]` clamps: for strings
shorter than 4 it is the whole string, matching `drop (length - 4)` with
truncated subtraction. -/
def maskChars (l : List Char) : List Char :=
  l.take 4 ++ ('.' :: '.' :: '.' :: []) ++ l.drop (l.length - 4)

/-- String form of the masked rendering. -/
def mask (s : String) : String :=
  ⟨maskChars s.data⟩

/-- The findings one string leaf produces in `check_secrets`: one
`warn`/`secret-leak` finding per matching prefix (`audit.py` 135-142). -/
def secretFindings (s : String) (path : String) : List Finding :=
  (suspicious_prefixes.filter (fun p => pyStartsWith s.data p.data)).map
    (fun _ => ⟨"secret-leak", Sev.warn, path, mask s⟩)

/-- Extending the location path: `f"{path}.{k}" if path else k`
(`audit.py` line 133). -/
def extendPath (path k : String) : String :=
  if path = "" then k else path ++ "." ++ k

mutual
/-- `walk_json` of `check_secrets` (`audit.py` 130-142): recurse into
mappings extending the path, test string leaves against the prefix
patterns; every other node (including sequences) produces nothing. -/
def walk_json : Json → String → List Finding
  | .obj kvs, path => walkEntries kvs path
  | .str s, path => secretFindings s path
  | _, _ => []
/-- The `for k, v in node.items()` loop of `walk_json`, in insertion
order. -/
def walkEntries : List (String × Json) → String → List Finding
  | [], _ => []
  | (k, v) :: rest, path => walk_json v (extendPath path k) ++ walkEntries rest path
end

/-- `check_secrets(config)` (`audit.py` 125-144): walk the whole document
starting from the empty path. -/
def check_secrets (config : Config) : List Finding :=
  walk_json (Json.obj config) ""

/-- C1: the secret scan over `{"a": {"b": "sk-abcdef1234567890"}}` yields
exactly one finding, at location `a.b`, of `warn` severity and category
`secret-leak`, whose masked text is `sk-a...7890`. -/
theorem c1_secret_scan_example :
    check_secrets [("a", Json.obj [("b", Json.str "sk-abcdef1234567890")])] =
      [⟨"secret-leak", Sev.warn, "a.b", "sk-a...7890"⟩] := by
  rfl

/-- The detection condition of `check_secrets` for one string leaf: some
credential prefix matches. -/
def isSuspicious (s : String) : Bool :=
  suspicious_prefixes.any (fun p => pyStartsWith s.data p.data)

/-- `needle` appears verbatim as a contiguous substring of `hay`. -/
def occursIn (needle hay : List Char) : Prop :=
  ∃ t u, hay = t ++ needle ++ u

/-- C2, counterexample: the detected secret `"AIza"` (length 4) is
reproduced in full inside its own masked rendering `"AIza...AIza"`, so the
full secret does appear in the output. -/
theorem c2_counterexample_short_secret :
    check_secrets [("k", Json.str "AIza")] =
      [⟨"secret-leak", Sev.warn, "k", "AIza...AIza"⟩] ∧
    occursIn "AIza".data (mask "AIza").data :=
  ⟨rfl, ⟨[], "...AIza".data, rfl⟩⟩

/-- Positions 4, 5, 6 of a masked value of length ≥ 4 hold the placeholder
dots. -/
theorem maskChars_dot_at (l : List Char) (h4 : 4 ≤ l.length) (i : Nat)
    (hi1 : 4 ≤ i) (hi2 : i < 7) : (maskChars l)[i]? = some '.' := by
  have hA : (l.take 4).length = 4 := by
    simp [List.length_take]; omega
  have h1 : (maskChars l)[i]? =
      (('.' :: '.' :: '.' :: []) ++ l.drop (l.length - 4))[i - 4]? := by
    have step : ∀ (x y : List Char) (m : Nat), x.length ≤ m →
        (x ++ y)[m]? = y[m - x.length]? :=
      fun x y m hm => List.getElem?_append_right hm
    have := step (l.take 4)
      (('.' :: '.' :: '.' :: []) ++ l.drop (l.length - 4)) i (by omega)
    simpa [maskChars, hA] using this
  have h2 : (('.' :: '.' :: '.' :: []) ++ l.drop (l.length - 4))[i - 4]? =
      (('.' :: '.' :: '.' :: []) : List Char)[i - 4]? :=
    List.getElem?_append_left (by simp; omega)
  rw [h1, h2]
  interval_cases i <;> rfl

/-- C2, amended: on every detected string value, the masked rendering is
exactly the first 4 characters, the fixed placeholder `...`, then the last
4 characters; and the full secret value never appears in the output
provided the value has length at least 5 and does not itself contain the
placeholder character `.` (for detected values of length at most 4 the
slices overlap and the full value is reproduced, see the
counterexample). -/
theorem c2_mask_amended (l : List Char)
    (hdet : isSuspicious ⟨l⟩ = true)
    (h5 : 5 ≤ l.length) (hdot : '.' ∉ l) :
    (maskChars l).length = 11 ∧
    (maskChars l).take 4 = l.take 4 ∧
    ((maskChars l).drop 4).take 3 = '.' :: '.' :: '.' :: [] ∧
    (maskChars l).drop 7 = l.drop (l.length - 4) ∧
    ¬ occursIn l (maskChars l) := by
  have hA : (l.take 4).length = 4 := by
    simp [List.length_take]; omega
  have hB : (l.drop (l.length - 4)).length = 4 := by
    simp [List.length_drop]; omega
  have hlen : (maskChars l).length = 11 := by
    simp [maskChars, List.length_append, hA, hB]
  refine ⟨hlen, ?_, ?_, ?_, ?_⟩
  · rw [maskChars, List.append_assoc, List.take_left' hA]
  · rw [maskChars, List.append_assoc, List.drop_left' hA]
    exact List.take_left' rfl
  · rw [maskChars]
    exact List.drop_left' (by simp [List.length_append, hA])
  · rintro ⟨t, u, heq⟩
    have hlens : 11 = t.length + (l.length + u.length) := by
      have := congrArg List.length heq
      simpa [hlen, List.length_append] using this
    -- pick an index j into l that lands on a placeholder dot of the mask
    set j : Nat := if t.length ≤ 4 then 4 - t.length else 0 with hj
    have hjl : j < l.length := by
      rw [hj]; split <;> omega
    have hrange : 4 ≤ t.length + j ∧ t.length + j < 7 := by
      constructor <;> (rw [hj]; split <;> omega)
    have hdotAt : (maskChars l)[t.length + j]? = some '.' :=
      maskChars_dot_at l (by omega) _ hrange.1 hrange.2
    have hval : (maskChars l)[t.length + j]? = some l[j] := by
      rw [heq, List.append_assoc]
      rw [List.getElem?_append_right (by omega)]
      have : t.length + j - t.length = j := by omega
      rw [this]
      rw [List.getElem?_append_left hjl]
      exact List.getElem?_eq_getElem hjl
    have : l[j] = '.' := by
      have := hdotAt.symm.trans hval
      exact (Option.some.injEq _ _ ▸ this).symm
    exact hdot (this ▸ List.getElem_mem hjl)

/-- Witness for `c2_mask_amended` at the concrete detected value
`"sk-abcdef1234567890"`. -/
theorem c2_mask_amended_witness :
    isSuspicious ⟨"sk-abcdef1234567890".data⟩ = true ∧
    5 ≤ "sk-abcdef1234567890".data.length ∧
    '.' ∉ "sk-abcdef1234567890".data ∧
    ¬ occursIn "sk-abcdef1234567890".data (maskChars "sk-abcdef1234567890".data) :=
  ⟨by decide, by decide, by decide,
    (c2_mask_amended "sk-abcdef1234567890".data (by decide) (by decide)
      (by decide)).2.2.2.2⟩

/-- Python whitespace for `str.strip()` with no argument. -/
def isPySpace (c : Char) : Bool :=
  c = ' ' || c = '\t' || c = '\n' || c = '\x0d' || c = '\x0b' || c = '\x0c'

/-- Python `s.strip()`: drop whitespace from both ends. -/
def pyStrip (l : List Char) : List Char :=
  ((l.dropWhile isPySpace).reverse.dropWhile isPySpace).reverse

/-- Python `s.strip().lower()` as used at every confirmation prompt
(`harden.py` lines 75, 93, 105, 120, 149); `lower` is ASCII lowercasing,
which is all the comparison against `'n'` needs. -/
def pyStripLower (s : String) : String :=
  ⟨(pyStrip s.data).map Char.toLower⟩

/-- Reading one confirmation answer: `input(...).strip().lower()`.
`none` models a closed stdin, on which `input()` raises `EOFError`
(the `.error` case); nothing in `harden.py` catches it. -/
def readChoice : Option String → Except Unit String
  | none => Except.error ()
  | some s => Except.ok (pyStripLower s)

/-- The exposed bind addresses: `bind in ['0.0.0.0', 'all', '::']`
(`audit.py` line 71, `harden.py` line 91); exact, case-sensitive string
comparison. -/
def bindExposed (b : Json) : Bool :=
  b.eqStr "0.0.0.0" || b.eqStr "all" || b.eqStr "::"

/-- The local bind addresses: `bind in ['loopback', 'localhost',
'127.0.0.1']` (`audit.py` line 73). -/
def bindLocal (b : Json) : Bool :=
  b.eqStr "loopback" || b.eqStr "localhost" || b.eqStr "127.0.0.1"

/-- `check_gateway(config)` (`audit.py` 63-91): classify the bind address
and the auth mode/strength; returns the bind finding then the auth
finding. -/
def check_gateway (config : Config) : List Finding :=
  let gateway := dgetD config "gateway" (Json.obj [])
  let bind := gateway.getD "bind" (Json.str "loopback")
  let bindF : Finding :=
    if bindExposed bind then ⟨"gateway-bind", Sev.fail, "gateway", ""⟩
    else if bindLocal bind then ⟨"gateway-bind", Sev.pass, "gateway", ""⟩
    else ⟨"gateway-bind", Sev.warn, "gateway", ""⟩
  let auth := gateway.getD "auth" (Json.obj [])
  let mode := auth.getD "mode" (Json.str "token")
  let authF : Finding :=
    if mode.eqStr "none" then ⟨"gateway-auth", Sev.critical, "gateway", ""⟩
    else if mode.eqStr "token" then
      (if (auth.getD "token" (Json.str "")).jlen < 16 then
        ⟨"gateway-auth", Sev.warn, "gateway", ""⟩
      else ⟨"gateway-auth", Sev.pass, "gateway", ""⟩)
    else ⟨"gateway-auth", Sev.pass, "gateway", ""⟩
  [bindF, authF]

/-- One hex digit as CPython's `binascii.hexlify` renders it:
`0`-`9` then lowercase `a`-`f`. -/
def hexDigit (n : Nat) : Char :=
  if n < 10 then Char.ofNat (48 + n) else Char.ofNat (87 + n)

/-- One byte as two lowercase hex characters. -/
def byteToHex (b : Nat) : List Char :=
  [hexDigit (b / 16), hexDigit (b % 16)]

/-- `secrets.token_hex(n)` applied to the `n` random bytes actually drawn:
each byte becomes two lowercase hex characters.  The randomness is the
`bytes` parameter; `harden.py` calls this with 32 bytes. -/
def token_hex (bytes : List Nat) : String :=
  ⟨bytes.flatMap byteToHex⟩

/-- The lowercase hex alphabet, i.e. the character class `[0-9a-f]`. -/
def hexAlphabet : List Char :=
  "0123456789abcdef".data

/-- The bind-address remediation step of `fix_gateway` (`harden.py`
89-97): on an exposed bind, prompt; any answer other than `n` (stripped,
lowercased) rebinds to `loopback`. -/
def fix_gateway_bind (resp : Option String) (gateway : Json) :
    Except Unit (Json × Bool) :=
  if bindExposed (gateway.getD "bind" (Json.str "loopback")) then
    match readChoice resp with
    | Except.error e => Except.error e
    | Except.ok choice =>
        if choice ≠ "n" then
          Except.ok (gateway.set "bind" (Json.str "loopback"), true)
        else Except.ok (gateway, false)
  else Except.ok (gateway, false)

/-- The auth remediation step of `fix_gateway` (`harden.py` 99-126):
mode `none` → enable token auth with a fresh token; weak token
(< 16 chars) in token mode → rotate; `changed` carries the flag from the
bind step. -/
def fix_gateway_auth (resp : Option String) (newTok : String) (gw : Json)
    (changed : Bool) : Except Unit (Json × Bool) :=
  let auth := gw.getD "auth" (Json.obj [])
  let mode := auth.getD "mode" (Json.str "token")
  if mode.eqStr "none" then
    match readChoice resp with
    | Except.error e => Except.error e
    | Except.ok choice =>
        if choice ≠ "n" then
          Except.ok (gw.set "auth"
            ((auth.set "mode" (Json.str "token")).set "token"
              (Json.str newTok)), true)
        else Except.ok (gw, changed)
  else if mode.eqStr "token" then
    (if (auth.getD "token" (Json.str "")).jlen < 16 then
      match readChoice resp with
      | Except.error e => Except.error e
      | Except.ok choice =>
          if choice ≠ "n" then
            Except.ok (gw.set "auth" (auth.set "token" (Json.str newTok)),
              true)
          else Except.ok (gw, changed)
    else Except.ok (gw, changed))
  else Except.ok (gw, changed)

/-- `fix_gateway(config)` (`harden.py` 84-131): bind step, then auth step
on the (possibly rebound) gateway; the document is updated only when some
change was confirmed, mirroring `if changed: config['gateway'] =
gateway`.  `newTok` is the token `secrets.token_hex(32)` would return at
the (at most one) generation site reached in the run. -/
def fix_gateway (respBind respAuth : Option String) (newTok : String)
    (config : Config) : Except Unit (Config × Bool) :=
  let gateway := dgetD config "gateway" (Json.obj [])
  match fix_gateway_bind respBind gateway with
  | Except.error e => Except.error e
  | Except.ok (gw₁, ch₁) =>
    match fix_gateway_auth respAuth newTok gw₁ ch₁ with
    | Except.error e => Except.error e
    | Except.ok (gw₂, ch₂) =>
        if ch₂ then Except.ok (dset config "gateway" gw₂, true)
        else Except.ok (config, false)

theorem dget_dset_self (kvs : List (String × Json)) (k : String) (v : Json) :
    dget (dset kvs k v) k = some v := by
  induction kvs with
  | nil => simp [dget, dset]
  | cons p t ih =>
      obtain ⟨k', v'⟩ := p
      by_cases hk : k' = k <;> simp [dget, dset, hk, ih]

theorem dget_dset_ne (kvs : List (String × Json)) (k k' : String) (v : Json)
    (h : k ≠ k') : dget (dset kvs k v) k' = dget kvs k' := by
  induction kvs with
  | nil => simp [dget, dset, h]
  | cons p t ih =>
      obtain ⟨a, b⟩ := p
      by_cases ha : a = k
      · subst ha; simp [dget, dset, h, Ne.symm h]
      · simp [dget, dset, ha, ih]

/-- The gateway mapping as the source reads it:
`config.get('gateway', {})`. -/
def gatewayOf (c : Config) : Json :=
  dgetD c "gateway" (Json.obj [])

/-- `gateway.get('bind', 'loopback')`. -/
def bindOf (c : Config) : Json :=
  (gatewayOf c).getD "bind" (Json.str "loopback")

/-- `gateway.get('auth', {})`. -/
def authOf (c : Config) : Json :=
  (gatewayOf c).getD "auth" (Json.obj [])

/-- `auth.get('mode', 'token')`. -/
def authModeOf (c : Config) : Json :=
  (authOf c).getD "mode" (Json.str "token")

/-- `auth.get('token', '')`. -/
def authTokenOf (c : Config) : Json :=
  (authOf c).getD "token" (Json.str "")

theorem token_hex_data (bytes : List Nat) :
    (token_hex bytes).data = bytes.flatMap byteToHex := rfl

theorem token_hex_length (bytes : List Nat) :
    (token_hex bytes).length = 2 * bytes.length := by
  show (bytes.flatMap byteToHex).length = 2 * bytes.length
  induction bytes with
  | nil => rfl
  | cons b t ih =>
      simp only [List.flatMap_cons, List.length_append, ih, byteToHex,
        List.length_cons, List.length_nil, List.length_cons]
      omega

theorem hexDigit_mem (n : Nat) (h : n < 16) : hexDigit n ∈ hexAlphabet := by
  interval_cases n <;> decide

theorem token_hex_alphabet (bytes : List Nat) (hb : ∀ b ∈ bytes, b < 256) :
    ∀ ch ∈ (token_hex bytes).data, ch ∈ hexAlphabet := by
  intro ch hch
  rw [token_hex_data] at hch
  obtain ⟨b, hbmem, hchb⟩ := List.mem_flatMap.mp hch
  have hlt : b < 256 := hb b hbmem
  have h16a : b / 16 < 16 := by omega
  have h16b : b % 16 < 16 := by omega
  simp only [byteToHex, List.mem_cons, List.not_mem_nil, or_false] at hchb
  rcases hchb with h | h
  · exact h ▸ hexDigit_mem _ h16a
  · exact h ▸ hexDigit_mem _ h16b

theorem fix_gateway_bind_eq (s : String) (gw : Json) :
    fix_gateway_bind (some s) gw =
      Except.ok
        (if bindExposed (gw.getD "bind" (Json.str "loopback")) then
          (if pyStripLower s = "n" then (gw, false)
           else (gw.set "bind" (Json.str "loopback"), true))
        else (gw, false)) := by
  by_cases hb : bindExposed (gw.getD "bind" (Json.str "loopback")) <;>
    by_cases hn : pyStripLower s = "n" <;>
      simp [fix_gateway_bind, readChoice, hb, hn]

theorem fix_gateway_auth_eq (s newTok : String) (gw : Json) (ch : Bool) :
    fix_gateway_auth (some s) newTok gw ch =
      Except.ok
        (if ((gw.getD "auth" (Json.obj [])).getD "mode"
              (Json.str "token")).eqStr "none" then
          (if pyStripLower s = "n" then (gw, ch)
           else
            (gw.set "auth"
              (((gw.getD "auth" (Json.obj [])).set "mode"
                  (Json.str "token")).set "token" (Json.str newTok)), true))
        else if ((gw.getD "auth" (Json.obj [])).getD "mode"
              (Json.str "token")).eqStr "token" then
          (if ((gw.getD "auth" (Json.obj [])).getD "token"
                (Json.str "")).jlen < 16 then
            (if pyStripLower s = "n" then (gw, ch)
             else
              (gw.set "auth"
                ((gw.getD "auth" (Json.obj [])).set "token"
                  (Json.str newTok)), true))
          else (gw, ch))
        else (gw, ch)) := by
  by_cases h1 : ((gw.getD "auth" (Json.obj [])).getD "mode"
      (Json.str "token")).eqStr "none" <;>
    by_cases h2 : ((gw.getD "auth" (Json.obj [])).getD "mode"
        (Json.str "token")).eqStr "token" <;>
      by_cases h3 : ((gw.getD "auth" (Json.obj [])).getD "token"
          (Json.str "")).jlen < 16 <;>
        by_cases hn : pyStripLower s = "n" <;>
          simp [fix_gateway_auth, readChoice, h1, h2, h3, hn]

theorem c3_auth_step (g' a : List (String × Json)) (tok : String) (ch : Bool)
    (ha : dget g' "auth" = some (Json.obj a))
    (hm : dget a "mode" = some (Json.str "none")) :
    fix_gateway_auth (some "y") tok (Json.obj g') ch =
      Except.ok
        (Json.obj (dset g' "auth"
          (Json.obj (dset (dset a "mode" (Json.str "token")) "token"
            (Json.str tok)))), true) := by
  rw [fix_gateway_auth_eq]
  simp [Json.getD, Json.get, ha, hm, Json.eqStr, Json.set,
    show pyStripLower "y" = "y" from rfl]

theorem c3_bind_step (g : List (String × Json)) :
    ∃ (g' : List (String × Json)) (ch : Bool),
      fix_gateway_bind (some "y") (Json.obj g) = Except.ok (Json.obj g', ch) ∧
      dget g' "auth" = dget g "auth" := by
  rw [fix_gateway_bind_eq]
  by_cases hbe : bindExposed ((Json.obj g).getD "bind" (Json.str "loopback"))
  · refine ⟨dset g "bind" (Json.str "loopback"), true, ?_, ?_⟩
    · simp [hbe, Json.set, show pyStripLower "y" = "y" from rfl]
    · exact dget_dset_ne g "bind" "auth" (Json.str "loopback") (by decide)
  · exact ⟨g, false, by simp [hbe], rfl⟩

/-- C3: for every gateway config with `auth.mode == "none"`, the audit
evaluation yields a `critical` gateway-auth finding; after a confirmed
remediation `auth.mode == "token"` and the generated token is the hex
encoding of the 32 random bytes drawn: 64 characters, hence length ≥ 16,
all in `[0-9a-f]` (and nonempty, so it matches `[0-9a-f]+`), and a
subsequent evaluation of the remediated config yields a `pass` (never the
weak-token `warn`) gateway-auth finding. -/
theorem c3_auth_none_critical_then_strong_token (c : Config)
    (g a : List (String × Json)) (bytes : List Nat)
    (hg : dget c "gateway" = some (Json.obj g))
    (ha : dget g "auth" = some (Json.obj a))
    (hm : dget a "mode" = some (Json.str "none"))
    (hby : bytes.length = 32) (hlt : ∀ b ∈ bytes, b < 256) :
    (check_gateway c)[1]? =
      some ⟨"gateway-auth", Sev.critical, "gateway", ""⟩ ∧
    ∃ c' : Config,
      fix_gateway (some "y") (some "y") (token_hex bytes) c =
        Except.ok (c', true) ∧
      authModeOf c' = Json.str "token" ∧
      authTokenOf c' = Json.str (token_hex bytes) ∧
      (token_hex bytes).length = 64 ∧
      16 ≤ (token_hex bytes).length ∧
      (token_hex bytes).data ≠ [] ∧
      (∀ ch ∈ (token_hex bytes).data, ch ∈ hexAlphabet) ∧
      (check_gateway c')[1]? =
        some ⟨"gateway-auth", Sev.pass, "gateway", ""⟩ := by
  have htl : (token_hex bytes).length = 64 := by
    rw [token_hex_length, hby]
  have hgw : dgetD c "gateway" (Json.obj []) = Json.obj g := by
    simp [dgetD, hg]
  constructor
  · simp [check_gateway, hgw, Json.getD, Json.get, ha, hm, Json.eqStr]
  · obtain ⟨g', ch, hstep, hauth'⟩ := c3_bind_step g
    have ha' : dget g' "auth" = some (Json.obj a) := hauth'.trans ha
    refine ⟨dset c "gateway"
      (Json.obj (dset g' "auth"
        (Json.obj (dset (dset a "mode" (Json.str "token")) "token"
          (Json.str (token_hex bytes)))))), ?_, ?_, ?_, htl, by omega, ?_, 
      token_hex_alphabet bytes hlt, ?_⟩
    · simp only [fix_gateway, hgw, hstep, c3_auth_step g' a _ ch ha' hm,
        if_true]
    · simp [authModeOf, authOf, gatewayOf, Json.getD, Json.get, dgetD,
        dget_dset_self, dget_dset_ne _ _ _ _ (show "token" ≠ "mode" by decide)]
    · simp [authTokenOf, authOf, gatewayOf, Json.getD, Json.get, dgetD,
        dget_dset_self]
    · intro hnil
      have := congrArg List.length hnil
      rw [← String.length] at this
      simp [htl] at this
    · simp [check_gateway, gatewayOf, Json.getD, Json.get, dgetD,
        dget_dset_self, dget_dset_ne _ _ _ _ (show "token" ≠ "mode" by decide),
        Json.eqStr, Json.jlen, htl]

/-- A concrete gateway config with authentication disabled. -/
def c3cfg : Config :=
  [("gateway", Json.obj [("auth", Json.obj [("mode", Json.str "none")])])]

/-- Witness for `c3_auth_none_critical_then_strong_token` at a concrete
config and concrete random bytes. -/
theorem c3_witness :
    (check_gateway c3cfg)[1]? =
      some ⟨"gateway-auth", Sev.critical, "gateway", ""⟩ ∧
    ∃ c' : Config,
      fix_gateway (some "y") (some "y") (token_hex (List.replicate 32 0))
          c3cfg = Except.ok (c', true) ∧
      authModeOf c' = Json.str "token" ∧
      authTokenOf c' = Json.str (token_hex (List.replicate 32 0)) ∧
      (token_hex (List.replicate 32 0)).length = 64 ∧
      16 ≤ (token_hex (List.replicate 32 0)).length ∧
      (token_hex (List.replicate 32 0)).data ≠ [] ∧
      (∀ ch ∈ (token_hex (List.replicate 32 0)).data, ch ∈ hexAlphabet) ∧
      (check_gateway c')[1]? =
        some ⟨"gateway-auth", Sev.pass, "gateway", ""⟩ :=
  c3_auth_none_critical_then_strong_token c3cfg
    [("auth", Json.obj [("mode", Json.str "none")])]
    [("mode", Json.str "none")] (List.replicate 32 0) rfl rfl rfl rfl
    (by decide)

theorem bindLocal_not_exposed (b : Json) (h : bindLocal b = true) :
    bindExposed b = false := by
  cases b <;> simp [bindLocal, bindExposed, Json.eqStr] at *
  rcases h with (h | h) | h <;> subst h <;> decide

theorem fix_gateway_auth_preserves (s tok : String)
    (h : List (String × Json)) (ch : Bool) :
    ∃ (h' : List (String × Json)) (ch' : Bool),
      fix_gateway_auth (some s) tok (Json.obj h) ch =
        Except.ok (Json.obj h', ch') ∧
      dget h' "bind" = dget h "bind" ∧ (ch = true → ch' = true) := by
  rw [fix_gateway_auth_eq]
  by_cases h1 : (((Json.obj h).getD "auth" (Json.obj [])).getD "mode"
      (Json.str "token")).eqStr "none"
  · by_cases hn : pyStripLower s = "n"
    · exact ⟨h, ch, by simp [h1, hn], rfl, fun hc => hc⟩
    · refine ⟨dset h "auth" (((Json.obj h).getD "auth" (Json.obj [])).set
        "mode" (Json.str "token") |>.set "token" (Json.str tok)), true,
        by simp [h1, hn, Json.set], ?_, fun _ => rfl⟩
      exact dget_dset_ne h "auth" "bind" _ (by decide)
  · by_cases h2 : (((Json.obj h).getD "auth" (Json.obj [])).getD "mode"
        (Json.str "token")).eqStr "token"
    · by_cases h3 : (((Json.obj h).getD "auth" (Json.obj [])).getD "token"
          (Json.str "")).jlen < 16
      · by_cases hn : pyStripLower s = "n"
        · exact ⟨h, ch, by simp [h1, h2, h3, hn], rfl, fun hc => hc⟩
        · refine ⟨dset h "auth" (((Json.obj h).getD "auth"
            (Json.obj [])).set "token" (Json.str tok)), true,
            by simp [h1, h2, h3, hn, Json.set], ?_, fun _ => rfl⟩
          exact dget_dset_ne h "auth" "bind" _ (by decide)
      · exact ⟨h, ch, by simp [h1, h2, h3], rfl, fun hc => hc⟩
    · exact ⟨h, ch, by simp [h1, h2], rfl, fun hc => hc⟩

/-- C4: for every gateway config, (1) an exposed bind (`0.0.0.0`, `all`,
`::`; exact, case-sensitive) evaluates to a `fail` gateway-bind finding
and, after a confirmed remediation, the config's bind is `loopback`;
(2) a local bind (`loopback`, `localhost`, `127.0.0.1`) evaluates to
`pass`, the bind-remediation step is a no-op for any prompt answer (it
never prompts), and a confirmed remediation run leaves the bind
unchanged; (3) the bind remediation is idempotent: running it a second
time on the result of a first (confirmed) run changes nothing. -/
theorem c4_bind_fail_remediate_pass_noop (c : Config)
    (g : List (String × Json)) (tok : String)
    (hg : dget c "gateway" = some (Json.obj g)) :
    (∀ b, dget g "bind" = some b → bindExposed b = true →
      (check_gateway c)[0]? = some ⟨"gateway-bind", Sev.fail, "gateway", ""⟩ ∧
      ∃ (c' : Config) (ch : Bool),
        fix_gateway (some "y") (some "y") tok c = Except.ok (c', ch) ∧
        bindOf c' = Json.str "loopback") ∧
    (∀ b, dget g "bind" = some b → bindLocal b = true →
      (check_gateway c)[0]? = some ⟨"gateway-bind", Sev.pass, "gateway", ""⟩ ∧
      (∀ r, fix_gateway_bind r (Json.obj g) = Except.ok (Json.obj g, false)) ∧
      ∃ (c' : Config) (ch : Bool),
        fix_gateway (some "y") (some "y") tok c = Except.ok (c', ch) ∧
        bindOf c' = b) ∧
    (∀ (gw gw' : Json) (ch : Bool),
      fix_gateway_bind (some "y") gw = Except.ok (gw', ch) →
      fix_gateway_bind (some "y") gw' = Except.ok (gw', false)) := by
  have hgw : dgetD c "gateway" (Json.obj []) = Json.obj g := by
    simp [dgetD, hg]
  refine ⟨?_, ?_, ?_⟩
  · intro b hb hbe
    have hbindv : (Json.obj g).getD "bind" (Json.str "loopback") = b := by
      simp [Json.getD, Json.get, hb]
    constructor
    · simp [check_gateway, hgw, hbindv, hbe]
    · have hstep1 : fix_gateway_bind (some "y") (Json.obj g) =
          Except.ok (Json.obj (dset g "bind" (Json.str "loopback")), true) := by
        rw [fix_gateway_bind_eq]
        simp [hbindv, hbe, Json.set, show pyStripLower "y" = "y" from rfl]
      obtain ⟨h', ch', hstep2, hpres, hch⟩ :=
        fix_gateway_auth_preserves "y" tok (dset g "bind" (Json.str "loopback"))
          true
      refine ⟨dset c "gateway" (Json.obj h'), true, ?_, ?_⟩
      · simp only [fix_gateway, hgw, hstep1, hstep2, hch rfl, if_true]
      · have : dget h' "bind" = some (Json.str "loopback") := by
          rw [hpres, dget_dset_self]
        simp [bindOf, gatewayOf, dgetD, dget_dset_self, Json.getD, Json.get,
          this]
  · intro b hb hloc
    have hbe : bindExposed b = false := bindLocal_not_exposed b hloc
    have hbindv : (Json.obj g).getD "bind" (Json.str "loopback") = b := by
      simp [Json.getD, Json.get, hb]
    refine ⟨?_, ?_, ?_⟩
    · simp [check_gateway, hgw, hbindv, hbe, hloc]
    · intro r
      simp [fix_gateway_bind, hbindv, hbe]
    · have hstep1 : fix_gateway_bind (some "y") (Json.obj g) =
          Except.ok (Json.obj g, false) := by
        rw [fix_gateway_bind_eq]; simp [hbindv, hbe]
      obtain ⟨h', ch', hstep2, hpres, _⟩ :=
        fix_gateway_auth_preserves "y" tok g false
      have hb' : dget h' "bind" = some b := hpres.trans hb
      by_cases hch' : ch' = true
      · refine ⟨dset c "gateway" (Json.obj h'), true, ?_, ?_⟩
        · simp only [fix_gateway, hgw, hstep1, hstep2, hch', if_true]
        · simp [bindOf, gatewayOf, dgetD, dget_dset_self, Json.getD,
            Json.get, hb']
      · have hch0 : ch' = false := by
          cases ch' <;> simp at hch' ⊢
        refine ⟨c, false, ?_, ?_⟩
        · simp only [fix_gateway, hgw, hstep1, hstep2, hch0,
            Bool.false_eq_true, if_false]
        · simp [bindOf, gatewayOf, dgetD, hg, Json.getD, Json.get, hb]
  · intro gw gw' ch hrun
    rw [fix_gateway_bind_eq] at hrun
    by_cases hbe : bindExposed (gw.getD "bind" (Json.str "loopback"))
    · rw [if_pos hbe,
        if_neg (by decide : ¬ pyStripLower "y" = "n")] at hrun
      injection hrun with h
      rw [Prod.mk.injEq] at h
      obtain ⟨h1, h2⟩ := h
      subst h1
      cases gw with
      | obj kvs =>
          have hb' : (Json.obj kvs |>.set "bind"
              (Json.str "loopback")).getD "bind" (Json.str "loopback") =
              Json.str "loopback" := by
            simp [Json.set, Json.getD, Json.get, dget_dset_self]
          rw [fix_gateway_bind_eq, hb']
          simp [bindExposed, Json.eqStr]
      | null => simp [Json.getD, Json.get, bindExposed, Json.eqStr] at hbe
      | bool b => simp [Json.getD, Json.get, bindExposed, Json.eqStr] at hbe
      | num n => simp [Json.getD, Json.get, bindExposed, Json.eqStr] at hbe
      | str s => simp [Json.getD, Json.get, bindExposed, Json.eqStr] at hbe
      | arr xs => simp [Json.getD, Json.get, bindExposed, Json.eqStr] at hbe
    · rw [if_neg hbe] at hrun
      injection hrun with h
      rw [Prod.mk.injEq] at h
      obtain ⟨h1, h2⟩ := h
      subst h1
      rw [fix_gateway_bind_eq, if_neg hbe]

/-- Witness for `c4_bind_fail_remediate_pass_noop` at concrete exposed and
local binds. -/
theorem c4_witness :
    (check_gateway [("gateway", Json.obj [("bind", Json.str "0.0.0.0")])])[0]? =
      some ⟨"gateway-bind", Sev.fail, "gateway", ""⟩ ∧
    (check_gateway [("gateway", Json.obj [("bind", Json.str "loopback")])])[0]? =
      some ⟨"gateway-bind", Sev.pass, "gateway", ""⟩ :=
  ⟨((c4_bind_fail_remediate_pass_noop
      [("gateway", Json.obj [("bind", Json.str "0.0.0.0")])]
      [("bind", Json.str "0.0.0.0")] "" rfl).1
      (Json.str "0.0.0.0") rfl rfl).1,
   ((c4_bind_fail_remediate_pass_noop
      [("gateway", Json.obj [("bind", Json.str "loopback")])]
      [("bind", Json.str "loopback")] "" rfl).2.1
      (Json.str "loopback") rfl rfl).1⟩

/-- The findings one channel produces in `check_channels` (`audit.py`
101-123): a channel whose `enabled` value is not truthy is skipped
entirely; an inspected channel yields its DM-policy finding then its
group-policy finding, at the channel's name as location. -/
def channelFindings (name : String) (settings : Json) : List Finding :=
  if truthy (settings.getD "enabled" (Json.bool false)) then
    let dm := settings.getD "dmPolicy" (Json.str "pairing")
    let dmF : Finding :=
      if dm.eqStr "open" then ⟨"channel-dm", Sev.fail, name, ""⟩
      else if dm.eqStr "pairing" then ⟨"channel-dm", Sev.pass, name, ""⟩
      else if dm.eqStr "allowlist" then ⟨"channel-dm", Sev.pass, name, ""⟩
      else ⟨"channel-dm", Sev.warn, name, ""⟩
    let gp := settings.getD "groupPolicy" (Json.str "allowlist")
    let gpF : Finding :=
      if gp.eqStr "open" then ⟨"channel-group", Sev.fail, name, ""⟩
      else ⟨"channel-group", Sev.pass, name, ""⟩
    [dmF, gpF]
  else []

/-- `check_channels(config)` (`audit.py` 93-123): findings of all
channels, in mapping order.  A missing or falsy `channels` value prints
only an informational note; a truthy non-mapping would raise in Python
and does not occur in the claims. -/
def check_channels (config : Config) : List Finding :=
  match dgetD config "channels" (Json.obj []) with
  | Json.obj chs => chs.flatMap (fun p => channelFindings p.1 p.2)
  | _ => []

/-- The per-channel body of the `fix_channels` loop (`harden.py`
141-154): skip non-truthy `enabled`; on an enabled channel with
`dmPolicy == "open"`, prompt, and any answer other than `n` sets
`dmPolicy` to `pairing`. -/
def fix_channel (resp : Option String) (settings : Json) :
    Except Unit (Json × Bool) :=
  if truthy (settings.getD "enabled" (Json.bool false)) then
    if (settings.getD "dmPolicy" (Json.str "pairing")).eqStr "open" then
      match readChoice resp with
      | Except.error e => Except.error e
      | Except.ok choice =>
          if choice ≠ "n" then
            Except.ok (settings.set "dmPolicy" (Json.str "pairing"), true)
          else Except.ok (settings, false)
    else Except.ok (settings, false)
  else Except.ok (settings, false)

/-- The `for name, settings in channels.items()` loop of `fix_channels`,
threading the per-channel updates and the `changed` flag in order; a
raised `EOFError` aborts the loop where it occurs. -/
def fix_channel_list (resp : String → Option String) :
    List (String × Json) → Except Unit (List (String × Json) × Bool)
  | [] => Except.ok ([], false)
  | (n, s) :: rest =>
    match fix_channel (resp n) s with
    | Except.error e => Except.error e
    | Except.ok (s', c₁) =>
      match fix_channel_list resp rest with
      | Except.error e => Except.error e
      | Except.ok (rest', c₂) => Except.ok ((n, s') :: rest', c₁ || c₂)

/-- `fix_channels(config)` (`harden.py` 133-159): run the loop; the
document is updated only when some change was confirmed, mirroring
`if changed: config['channels'] = channels`. -/
def fix_channels (resp : String → Option String) (config : Config) :
    Except Unit (Config × Bool) :=
  match dgetD config "channels" (Json.obj []) with
  | Json.obj chs =>
    if chs.isEmpty then Except.ok (config, false)
    else
      match fix_channel_list resp chs with
      | Except.error e => Except.error e
      | Except.ok (chs', changed) =>
          if changed then
            Except.ok (dset config "channels" (Json.obj chs'), true)
          else Except.ok (config, false)
  | _ => Except.ok (config, false)

/-- C5: for every channel: (1) a channel whose `enabled` value is absent
or boolean `false` (not `true`, within the spec's boolean data model for
`enabled`) is skipped entirely — no finding and no remediation, for any
prompt answer and regardless of its policy values; (2) an enabled channel
with `dmPolicy == "open"` evaluates to a `fail` channel-dm finding and,
after a confirmed remediation, its `dmPolicy` is `pairing`. -/
theorem c5_channel_policy (name : String) (settings : Json)
    (r : Option String) :
    ((settings.get "enabled" = none ∨
        settings.get "enabled" = some (Json.bool false)) →
      channelFindings name settings = [] ∧
      fix_channel r settings = Except.ok (settings, false)) ∧
    ((settings.get "enabled" = some (Json.bool true) ∧
        settings.get "dmPolicy" = some (Json.str "open")) →
      (channelFindings name settings)[0]? =
        some ⟨"channel-dm", Sev.fail, name, ""⟩ ∧
      ∃ settings', fix_channel (some "y") settings =
          Except.ok (settings', true) ∧
        settings'.get "dmPolicy" = some (Json.str "pairing")) := by
  constructor
  · intro he
    have hf : truthy (settings.getD "enabled" (Json.bool false)) = false := by
      rcases he with he | he <;> simp [Json.getD, he, truthy]
    exact ⟨by simp [channelFindings, hf], by simp [fix_channel, hf]⟩
  · rintro ⟨he, hdm⟩
    have ht : truthy (settings.getD "enabled" (Json.bool false)) = true := by
      simp [Json.getD, he, truthy]
    have hdm' : settings.getD "dmPolicy" (Json.str "pairing") =
        Json.str "open" := by
      simp [Json.getD, hdm]
    constructor
    · simp [channelFindings, ht, hdm', Json.eqStr]
    · have hobj : ∃ kvs, settings = Json.obj kvs := by
        cases settings <;> simp [Json.get] at he ⊢
      obtain ⟨kvs, rfl⟩ := hobj
      refine ⟨Json.obj (dset kvs "dmPolicy" (Json.str "pairing")), ?_, ?_⟩
      · simp [fix_channel, ht, hdm', Json.eqStr, readChoice, Json.set,
          show pyStripLower "y" = "y" from rfl]
      · simp [Json.get, dget_dset_self]

/-- Witness for `c5_channel_policy`: a disabled channel with an `open` DM
policy produces nothing; an enabled one produces a `fail` finding. -/
theorem c5_witness :
    (channelFindings "discord"
        (Json.obj [("enabled", Json.bool false),
          ("dmPolicy", Json.str "open")]) = [] ∧
      fix_channel none
          (Json.obj [("enabled", Json.bool false),
            ("dmPolicy", Json.str "open")]) =
        Except.ok (Json.obj [("enabled", Json.bool false),
          ("dmPolicy", Json.str "open")], false)) ∧
    (channelFindings "discord"
        (Json.obj [("enabled", Json.bool true),
          ("dmPolicy", Json.str "open")]))[0]? =
      some ⟨"channel-dm", Sev.fail, "discord", ""⟩ :=
  ⟨(c5_channel_policy "discord"
      (Json.obj [("enabled", Json.bool false), ("dmPolicy", Json.str "open")])
      none).1 (Or.inr rfl),
   ((c5_channel_policy "discord"
      (Json.obj [("enabled", Json.bool true), ("dmPolicy", Json.str "open")])
      none).2 ⟨rfl, rfl⟩).1⟩

/-- `check_file_permissions(path)` (`audit.py` 40-61) on the permission
bits of the file: on Windows an informational manual-check message; on
POSIX, `mode & S_IRWXO` (= `mode % 8`) nonzero is a `fail`, else
`mode & S_IRWXG` (= `mode / 8 % 8`, shifted) nonzero is a `warn`, else
`pass`. -/
def check_file_permissions (windows : Bool) (mode : Nat) : Sev :=
  if windows then Sev.info
  else if mode % 8 ≠ 0 then Sev.fail
  else if mode / 8 % 8 ≠ 0 then Sev.warn
  else Sev.pass

/-- `fix_permissions(path)` (`harden.py` 62-82) as a function of the
current permission bits and the prompt answer: on POSIX, when any group
or other bit is set (`mode & (S_IRWXO|S_IRWXG)` nonzero), prompt; any
answer other than `n` runs `os.chmod(path, 0o600)`.  Returns the
resulting bits and the function's boolean result. -/
def fix_permissions (windows : Bool) (resp : Option String) (mode : Nat) :
    Except Unit (Nat × Bool) :=
  if windows then Except.ok (mode, false)
  else if mode % 8 ≠ 0 ∨ mode / 8 % 8 ≠ 0 then
    match readChoice resp with
    | Except.error e => Except.error e
    | Except.ok choice =>
        if choice ≠ "n" then Except.ok (0o600, true)
        else Except.ok (mode, false)
  else Except.ok (mode, false)

/-- C6: for every POSIX permission bit value: any "other" bit set gives
`fail`; only "group" bits set gives `warn`; neither gives `pass`.  The
remediation, whatever the prompt answer, either leaves the bits unchanged
or sets them to exactly `0o600` (owner read-write only), and when the fix
is confirmed on a permissive mode the result is exactly `0o600`; `0o600`
has no group or other bits, so remediation never widens non-owner
access. -/
theorem c6_permission_classification (mode : Nat) :
    (mode % 8 ≠ 0 → check_file_permissions false mode = Sev.fail) ∧
    (mode % 8 = 0 → mode / 8 % 8 ≠ 0 →
      check_file_permissions false mode = Sev.warn) ∧
    (mode % 8 = 0 → mode / 8 % 8 = 0 →
      check_file_permissions false mode = Sev.pass) ∧
    fix_permissions false (some "y") mode =
      Except.ok (if mode % 8 ≠ 0 ∨ mode / 8 % 8 ≠ 0 then ((0o600 : Nat), true)
        else (mode, false)) ∧
    (∀ (r : Option String) (res : Nat) (ch : Bool),
      fix_permissions false r mode = Except.ok (res, ch) →
      res = 0o600 ∨ res = mode) ∧
    (0o600 : Nat) % 8 = 0 ∧ (0o600 : Nat) / 8 % 8 = 0 := by
  refine ⟨?_, ?_, ?_, ?_, ?_, by decide, by decide⟩
  · intro h; simp [check_file_permissions, h]
  · intro h1 h2; simp [check_file_permissions, h1, h2]
  · intro h1 h2; simp [check_file_permissions, h1, h2]
  · by_cases hp : mode % 8 ≠ 0 ∨ mode / 8 % 8 ≠ 0 <;>
      simp [fix_permissions, readChoice, hp,
        show pyStripLower "y" = "y" from rfl]
  · intro r res ch h
    by_cases hp : mode % 8 ≠ 0 ∨ mode / 8 % 8 ≠ 0
    · cases r with
      | none => simp [fix_permissions, readChoice, hp] at h
      | some s =>
          by_cases hn : pyStripLower s = "n" <;>
            simp [fix_permissions, readChoice, hp, hn] at h <;>
            omega
    · simp [fix_permissions, hp] at h
      omega

/-- Witness for `c6_permission_classification` at the concrete modes
`0o644` (other-readable), `0o640` (group only) and `0o600` (owner
only). -/
theorem c6_witness :
    check_file_permissions false 0o644 = Sev.fail ∧
    check_file_permissions false 0o640 = Sev.warn ∧
    check_file_permissions false 0o600 = Sev.pass ∧
    fix_permissions false (some "y") 0o644 = Except.ok (0o600, true) :=
  ⟨(c6_permission_classification 0o644).1 (by decide),
   (c6_permission_classification 0o640).2.1 (by decide) (by decide),
   (c6_permission_classification 0o600).2.2.1 (by decide) (by decide),
   by
    have h := (c6_permission_classification 0o644).2.2.2.1
    simpa using h⟩

theorem fix_gateway_declined (c : Config) (tok : String) :
    fix_gateway (some "n") (some "n") tok c = Except.ok (c, false) := by
  have hstep1 : fix_gateway_bind (some "n")
      (dgetD c "gateway" (Json.obj [])) =
      Except.ok (dgetD c "gateway" (Json.obj []), false) := by
    rw [fix_gateway_bind_eq]
    by_cases hbe : bindExposed ((dgetD c "gateway" (Json.obj [])).getD
        "bind" (Json.str "loopback")) <;>
      simp [hbe, show pyStripLower "n" = "n" from rfl]
  have hstep2 : fix_gateway_auth (some "n") tok
      (dgetD c "gateway" (Json.obj [])) false =
      Except.ok (dgetD c "gateway" (Json.obj []), false) := by
    rw [fix_gateway_auth_eq]
    by_cases h1 : (((dgetD c "gateway" (Json.obj [])).getD "auth"
        (Json.obj [])).getD "mode" (Json.str "token")).eqStr "none" <;>
      by_cases h2 : (((dgetD c "gateway" (Json.obj [])).getD "auth"
          (Json.obj [])).getD "mode" (Json.str "token")).eqStr "token" <;>
        by_cases h3 : (((dgetD c "gateway" (Json.obj [])).getD "auth"
            (Json.obj [])).getD "token" (Json.str "")).jlen < 16 <;>
          simp [h1, h2, h3, show pyStripLower "n" = "n" from rfl]
  simp only [fix_gateway, hstep1, hstep2, Bool.false_eq_true, if_false]

theorem fix_channel_declined (s : Json) :
    fix_channel (some "n") s = Except.ok (s, false) := by
  by_cases he : truthy (s.getD "enabled" (Json.bool false)) <;>
    by_cases hd : (s.getD "dmPolicy" (Json.str "pairing")).eqStr "open" <;>
      simp [fix_channel, readChoice, he, hd,
        show pyStripLower "n" = "n" from rfl]

theorem fix_channel_list_declined (chs : List (String × Json)) :
    fix_channel_list (fun _ => some "n") chs = Except.ok (chs, false) := by
  induction chs with
  | nil => rfl
  | cons p t ih =>
      obtain ⟨n, s⟩ := p
      simp [fix_channel_list, fix_channel_declined, ih]

theorem fix_channels_declined (c : Config) :
    fix_channels (fun _ => some "n") c = Except.ok (c, false) := by
  unfold fix_channels
  cases hch : dgetD c "channels" (Json.obj []) with
  | obj chs =>
      by_cases hemp : chs.isEmpty <;>
        simp [hemp, fix_channel_list_declined]
  | null => rfl
  | bool b => rfl
  | num n => rfl
  | str s => rfl
  | arr xs => rfl

/-- The on-disk state the harden run touches: the config file's contents
and the backup copy (absent until `backup_config` succeeds). -/
structure Disk where
  file : String
  backup : Option String

/-- `backup_config(path)` (`harden.py` 52-60): `shutil.copy2` the file to
the backup path.  `ok` models whether the copy succeeds; on failure the
function reports `False` and the original file is untouched. -/
def backup_config (ok : Bool) (d : Disk) : Disk × Bool :=
  if ok then ({ d with backup := some d.file }, true) else (d, false)

/-- `main()` of `harden.py` (161-204) after a successful load: in
non-dry-run mode create the backup first and abort on failure; then run
`fix_permissions`, `fix_gateway`, `fix_channels` in order; if a document
change was made and not in dry-run mode, serialize the mutated config
over the original file.  `dumps` stands in for the
collaborating `json.dump`. Returns the final disk, permission bits, config and the
`changes_made` flag. -/
def harden_main (dumps : Config → String) (dryRun backupOk windows : Bool)
    (permResp bindResp authResp : Option String)
    (chanResp : String → Option String) (tok : String) (c : Config)
    (mode : Nat) (d : Disk) : Except Unit (Disk × Nat × Config × Bool) :=
  let bk := if dryRun then (d, true) else backup_config backupOk d
  if dryRun = false ∧ bk.2 = false then Except.ok (bk.1, mode, c, false)
  else
    match fix_permissions windows permResp mode with
    | Except.error e => Except.error e
    | Except.ok (mode', _) =>
      match fix_gateway bindResp authResp tok c with
      | Except.error e => Except.error e
      | Except.ok (c₁, g) =>
        match fix_channels chanResp c₁ with
        | Except.error e => Except.error e
        | Except.ok (c₂, h) =>
          let d₂ := if (g || h) = true ∧ dryRun = false then
              { bk.1 with file := dumps c₂ } else bk.1
          Except.ok (d₂, mode', c₂, g || h)

/-- C7: a declined confirmation never mutates: with every prompt answered
`n`, `fix_gateway` returns the config unchanged with no change flag (so a
declined fail-severity gateway-bind proposal leaves `gateway.bind`
untouched), `fix_channels` and `fix_permissions` likewise, and a full
non-dry-run harden run reports zero document mutations and leaves the
file contents unchanged (only the backup is created). -/
theorem c7_decline_leaves_untouched (dumps : Config → String)
    (w : Bool) (tok : String) (c : Config) (mode : Nat) (d : Disk) :
    fix_gateway (some "n") (some "n") tok c = Except.ok (c, false) ∧
    fix_channels (fun _ => some "n") c = Except.ok (c, false) ∧
    fix_permissions false (some "n") mode = Except.ok (mode, false) ∧
    harden_main dumps false true w (some "n") (some "n") (some "n")
        (fun _ => some "n") tok c mode d =
      Except.ok ({ d with backup := some d.file }, mode, c, false) := by
  have hfp : fix_permissions false (some "n") mode =
      Except.ok (mode, false) := by
    by_cases hp : mode % 8 ≠ 0 ∨ mode / 8 % 8 ≠ 0 <;>
      simp [fix_permissions, readChoice, hp,
        show pyStripLower "n" = "n" from rfl]
  refine ⟨fix_gateway_declined c tok, fix_channels_declined c, hfp, ?_⟩
  by_cases hw : w
  · have hfp' : fix_permissions w (some "n") mode =
        Except.ok (mode, false) := by
      subst hw; simp [fix_permissions]
    simp [harden_main, backup_config, hfp', fix_gateway_declined,
      fix_channels_declined]
  · have hw' : w = false := by cases w <;> simp_all
    subst hw'
    simp [harden_main, backup_config, hfp, fix_gateway_declined,
      fix_channels_declined]

/-- C8: in non-dry-run mode, if backup creation fails the entire run
aborts with no mutation — the file on disk is byte-identical to before
and nothing was applied; and in any successful non-dry-run outcome, if
the file's contents changed then the backup of the original contents
exists (the original is never overwritten without a backup,
fail-closed). -/
theorem c8_backup_fail_closed (dumps : Config → String)
    (dryRun backupOk w : Bool) (pr br ar : Option String)
    (cr : String → Option String) (tok : String) (c : Config)
    (mode : Nat) (d : Disk) :
    (dryRun = false → backupOk = false →
      harden_main dumps dryRun backupOk w pr br ar cr tok c mode d =
        Except.ok (d, mode, c, false)) ∧
    (∀ (d' : Disk) (mode' : Nat) (c' : Config) (ch : Bool),
      harden_main dumps dryRun backupOk w pr br ar cr tok c mode d =
        Except.ok (d', mode', c', ch) →
      dryRun = false → d'.file ≠ d.file → d'.backup = some d.file) := by
  constructor
  · intro h1 h2
    subst h1; subst h2
    simp [harden_main, backup_config]
  · intro d' mode' c' ch hrun hdry hfile
    subst hdry
    cases backupOk with
    | false =>
        simp [harden_main, backup_config] at hrun
        obtain ⟨h1, -, -, -⟩ := hrun
        exact absurd (h1 ▸ rfl) hfile
    | true =>
        rw [harden_main] at hrun
        cases hfp : fix_permissions w pr mode with
        | error e => simp [backup_config, hfp] at hrun
        | ok p =>
          obtain ⟨m₁, b₁⟩ := p
          cases hfg : fix_gateway br ar tok c with
          | error e => simp [backup_config, hfp, hfg] at hrun
          | ok q =>
            obtain ⟨c₁, g⟩ := q
            cases hfc : fix_channels cr c₁ with
            | error e => simp [backup_config, hfp, hfg, hfc] at hrun
            | ok r =>
              obtain ⟨c₂, h⟩ := r
              simp only [backup_config, hfp, hfg, hfc, Bool.false_eq_true,
                false_and, and_false, if_false, if_true, and_true,
                true_and] at hrun
              rw [if_neg (show ¬ (true = false) by simp)] at hrun
              injection hrun with hx
              rw [Prod.mk.injEq] at hx
              obtain ⟨hd, -⟩ := hx
              rw [← hd]
              split <;> rfl

/-- Witness for `c8_backup_fail_closed`: a failing backup on a concrete
run leaves the concrete disk unchanged. -/
theorem c8_witness :
    harden_main (fun _ => "mutated") false false false none none none
        (fun _ => none) "" [] 0o600 ⟨"original", none⟩ =
      Except.ok (⟨"original", none⟩, 0o600, [], false) :=
  (c8_backup_fail_closed (fun _ => "mutated") false false false none none
    none (fun _ => none) "" [] 0o600 ⟨"original", none⟩).1 rfl rfl

/-- C9 evaluation: `harden.py` does not catch `EOFError`.  At each
confirmation prompt a closed stdin (`input()` raising `EOFError`) aborts
the run with an uncaught exception instead of being treated as an
implicit decline: shown here on the permissions prompt (mode `0o644`),
the gateway-bind prompt (bind `0.0.0.0`) and a channel DM prompt. -/
theorem c9_eof_raises_uncaught :
    fix_permissions false none 0o644 = Except.error () ∧
    fix_gateway none none ""
        [("gateway", Json.obj [("bind", Json.str "0.0.0.0")])] =
      Except.error () ∧
    fix_channel none
        (Json.obj [("enabled", Json.bool true),
          ("dmPolicy", Json.str "open")]) =
      Except.error () :=
  ⟨rfl, rfl, rfl⟩

/-- C10: at every confirmation prompt, only the exact answer `n` (after
stripping whitespace and lowercasing) declines; every other answer —
including `no` and the empty string — applies the proposed fix.  Shown
for the permissions prompt, a channel DM prompt and the gateway-bind
prompt, for an arbitrary answer `s`. -/
theorem c10_any_answer_but_n_consents (s : String) :
    fix_permissions false (some s) 0o644 =
      Except.ok (if pyStripLower s = "n" then ((0o644 : Nat), false)
        else ((0o600 : Nat), true)) ∧
    fix_channel (some s)
        (Json.obj [("enabled", Json.bool true),
          ("dmPolicy", Json.str "open")]) =
      Except.ok (if pyStripLower s = "n" then
          (Json.obj [("enabled", Json.bool true),
            ("dmPolicy", Json.str "open")], false)
        else (Json.obj [("enabled", Json.bool true),
            ("dmPolicy", Json.str "pairing")], true)) ∧
    fix_gateway (some s) none ""
        [("gateway", Json.obj [("bind", Json.str "0.0.0.0"),
          ("auth", Json.obj [("mode", Json.str "custom")])])] =
      Except.ok (if pyStripLower s = "n" then
          ([("gateway", Json.obj [("bind", Json.str "0.0.0.0"),
            ("auth", Json.obj [("mode", Json.str "custom")])])], false)
        else ([("gateway", Json.obj [("bind", Json.str "loopback"),
            ("auth", Json.obj [("mode", Json.str "custom")])])], true)) ∧
    pyStripLower "no" ≠ "n" ∧ pyStripLower "" ≠ "n" ∧
    pyStripLower " N " = "n" := by
  refine ⟨?_, ?_, ?_, by decide, by decide, by decide⟩
  · by_cases hn : pyStripLower s = "n" <;>
      simp [fix_permissions, readChoice, hn]
  · by_cases hn : pyStripLower s = "n" <;>
      simp [fix_channel, readChoice, hn, truthy, Json.getD, Json.get, dget,
        Json.eqStr, Json.set, dset]
  · by_cases hn : pyStripLower s = "n" <;>
      simp [fix_gateway, fix_gateway_bind, fix_gateway_auth, readChoice, hn,
        Json.getD, Json.get, dget, dgetD, Json.eqStr, Json.set, dset,
        bindExposed]
